import Mathlib

/-!
Verification of the step-wizard form application (`src/streamlit_app.py`).

The file embeds, as executable Lean definitions, the parts of the program
the claims are about: the Google-Drive folder provisioner
(`create_folder_structure` and the per-segment check-then-create blocks),
the photo upload call (`upload_to_drive`), the reference-data filter that
derives a program manager's school list, the per-step button handlers of
`main` (Next/Previous/Submit on steps 1–5 over `st.session_state`), and
the submission dictionary built at the Submit click.
-/

namespace GDriveUpload

/-! ## Drive file-store model

The external file store is a flat list of entries, each with a numeric id,
a name, a parent id and a folder/file flag.  `listFolders` embeds the Drive
query `name='X' and mimeType='application/vnd.google-apps.folder' and
'P' in parents`; the list order of `folders` is the store's listing order,
and `filter` preserves it.  Fresh ids are handed out from `nextId`. -/

structure Folder where
  id : Nat
  name : String
  parent : Nat
  isFolder : Bool
deriving DecidableEq, Repr

structure DriveStore where
  folders : List Folder
  nextId : Nat
deriving DecidableEq, Repr

/-- The hardcoded root folder id `1qkrf5GEbhl0eRCtH9I2_zGsD8EbPXlH-`,
modelled as numeric id 0. -/
def ROOT_FOLDER_ID : Nat := 0

/-- A store with no folders; fresh ids start at 1 so they never collide
with `ROOT_FOLDER_ID`. -/
def emptyStore : DriveStore := ⟨[], 1⟩

/-- Embeds `service.files().list(q="name='nm' and mimeType='...folder' and
'parent' in parents")`: the children of `parent` named `nm` that are
folders, in the store's listing order. -/
def listFolders (s : DriveStore) (nm : String) (parent : Nat) : List Folder :=
  s.folders.filter (fun f => f.name == nm && f.isFolder && f.parent == parent)

/-- The user-visible message each folder block emits: `st.success("✓ Found
existing ... folder: nm")` or `st.success("✓ Created new ... folder: nm")`.
These two are the only outcomes in the source; no duplicate-specific
message exists there. -/
inductive DriveMsg where
  | foundExisting (name : String)
  | createdNew (name : String)
deriving DecidableEq, Repr

structure FolderResult where
  folderId : Nat
  store : DriveStore
  creates : Nat
  msg : DriveMsg
deriving DecidableEq, Repr

/-- One check-then-create block of `create_folder_structure` (lines
173–194 for the school segment; the year, month and visit blocks are
verbatim copies): list matches, take `files[0]` if any, otherwise create
a folder under `parent` and return its id.  `creates` counts the create
calls issued. -/
def getOrCreateFolder (nm : String) (parent : Nat) (s : DriveStore) : FolderResult :=
  match listFolders s nm parent with
  | f :: _ => ⟨f.id, s, 0, .foundExisting nm⟩
  | [] =>
      ⟨s.nextId, ⟨s.folders ++ [⟨s.nextId, nm, parent, true⟩], s.nextId + 1⟩, 1, .createdNew nm⟩

structure ResolveResult where
  ids : List Nat
  store : DriveStore
  creates : Nat
  msgs : List DriveMsg
deriving DecidableEq, Repr

/-- Sequential resolution of a path: each segment is resolved under the
previous segment's id (the root initially), exactly as the four blocks of
`create_folder_structure` chain `school → year → month → visit date`. -/
def resolvePath (segs : List String) (parent : Nat) (s : DriveStore) : ResolveResult :=
  match segs with
  | [] => ⟨[], s, 0, []⟩
  | nm :: rest =>
      let r := getOrCreateFolder nm parent s
      let r2 := resolvePath rest r.folderId r.store
      ⟨r.folderId :: r2.ids, r2.store, r.creates + r2.creates, r.msg :: r2.msgs⟩

/-- A calendar date, carrying what the three `strftime` calls extract. -/
structure Date where
  year : Nat
  month : Nat
  day : Nat
deriving DecidableEq, Repr

def monthNames : List String :=
  ["January", "February", "March", "April", "May", "June",
   "July", "August", "September", "October", "November", "December"]

/-- `visit_date.strftime("%Y")`. -/
def strfY (d : Date) : String := toString d.year

/-- `visit_date.strftime("%B")`. -/
def strfB (d : Date) : String := monthNames.getD (d.month - 1) ""

def pad2 (n : Nat) : String := if n < 10 then "0" ++ toString n else toString n

/-- `visit_date.strftime("%Y-%m-%d")`. -/
def strfISO (d : Date) : String :=
  toString d.year ++ "-" ++ pad2 d.month ++ "-" ++ pad2 d.day

/-- `create_folder_structure(service, school_name, visit_date)` (lines
159–275): resolves `Root → School → Year → Month → VisitDate` with one
check-then-create block per segment.  The source returns only the final
visit-folder id (`ids.getLast`); the model keeps the whole id sequence,
final store, create count and messages.  The preliminary
`check_folder_access` call is read-only and not modelled. -/
def create_folder_structure (school : String) (d : Date) (s : DriveStore) : ResolveResult :=
  resolvePath [school, strfY d, strfB d, strfISO d] ROOT_FOLDER_ID s

/-- `upload_to_drive` (lines 311–334): creates a non-folder file entry
under `folder_id` and returns its id.  Uploaded files do not satisfy the
`mimeType` folder filter of `listFolders`. -/
def upload_to_drive (filename : String) (folder_id : Nat) (s : DriveStore) :
    Nat × DriveStore :=
  (s.nextId, ⟨s.folders ++ [⟨s.nextId, filename, folder_id, false⟩], s.nextId + 1⟩)

/-! ### Provisioner lemmas -/

/-- `s₂` holds the same entries as `s`, in the same listing order, plus
possibly some appended after them — the only way any modelled operation
grows the store. -/
def StoreExtends (s s₂ : DriveStore) : Prop :=
  ∃ l, s₂.folders = s.folders ++ l

theorem storeExtends_refl (s : DriveStore) : StoreExtends s s :=
  ⟨[], by simp⟩

theorem storeExtends_trans {s₁ s₂ s₃ : DriveStore}
    (h₁ : StoreExtends s₁ s₂) (h₂ : StoreExtends s₂ s₃) : StoreExtends s₁ s₃ := by
  obtain ⟨l₁, hl₁⟩ := h₁
  obtain ⟨l₂, hl₂⟩ := h₂
  exact ⟨l₁ ++ l₂, by simp [hl₂, hl₁]⟩

theorem listFolders_extends {s s₂ : DriveStore} (h : StoreExtends s s₂)
    (nm : String) (p : Nat) :
    ∃ l, listFolders s₂ nm p = listFolders s nm p ++ l := by
  obtain ⟨l, hl⟩ := h
  refine ⟨l.filter (fun f => f.name == nm && f.isFolder && f.parent == p), ?_⟩
  simp [listFolders, hl, List.filter_append]

theorem getOrCreateFolder_extends (nm : String) (p : Nat) (s : DriveStore) :
    StoreExtends s (getOrCreateFolder nm p s).store := by
  unfold getOrCreateFolder
  cases h : listFolders s nm p with
  | nil => exact ⟨[⟨s.nextId, nm, p, true⟩], rfl⟩
  | cons f t => exact ⟨[], by simp⟩

/-- When the store already lists at least one match, the block returns the
first match's id, issues zero creates, leaves the store unchanged and
reports `Found existing`. -/
theorem getOrCreateFolder_found {s : DriveStore} {nm : String} {p : Nat}
    {f : Folder} {t : List Folder} (h : listFolders s nm p = f :: t) :
    getOrCreateFolder nm p s = ⟨f.id, s, 0, .foundExisting nm⟩ := by
  unfold getOrCreateFolder
  rw [h]

/-- After running a block, the store lists a first match whose id is the
returned id. -/
theorem getOrCreateFolder_self (nm : String) (p : Nat) (s : DriveStore) :
    ∃ f t, listFolders (getOrCreateFolder nm p s).store nm p = f :: t ∧
      f.id = (getOrCreateFolder nm p s).folderId := by
  unfold getOrCreateFolder
  cases h : listFolders s nm p with
  | cons f t => exact ⟨f, t, by simp [h], rfl⟩
  | nil =>
      refine ⟨⟨s.nextId, nm, p, true⟩, [], ?_, rfl⟩
      simp only [listFolders] at h ⊢
      simp [List.filter_append, h]

/-- Re-running a block against any later store state finds the folder the
first run settled on and changes nothing. -/
theorem getOrCreateFolder_stable {nm : String} {p : Nat} {s s₂ : DriveStore}
    (h : StoreExtends (getOrCreateFolder nm p s).store s₂) :
    getOrCreateFolder nm p s₂ =
      ⟨(getOrCreateFolder nm p s).folderId, s₂, 0, .foundExisting nm⟩ := by
  obtain ⟨f, t, hft, hid⟩ := getOrCreateFolder_self nm p s
  obtain ⟨l, hl⟩ := listFolders_extends h nm p
  rw [hft] at hl
  rw [getOrCreateFolder_found hl, hid]

theorem resolvePath_extends (segs : List String) (p : Nat) (s : DriveStore) :
    StoreExtends s (resolvePath segs p s).store := by
  induction segs generalizing p s with
  | nil => exact storeExtends_refl s
  | cons nm rest ih =>
      exact storeExtends_trans (getOrCreateFolder_extends nm p s)
        (ih (getOrCreateFolder nm p s).folderId (getOrCreateFolder nm p s).store)

/-- Idempotence of path resolution: re-resolving the same path against the
store the first run produced returns the same id sequence, leaves the
store unchanged, issues zero creates and reports every segment as found. -/
theorem resolvePath_idem (segs : List String) (p : Nat) (s : DriveStore) :
    resolvePath segs p (resolvePath segs p s).store =
      ⟨(resolvePath segs p s).ids, (resolvePath segs p s).store, 0,
        segs.map DriveMsg.foundExisting⟩ := by
  induction segs generalizing p s with
  | nil => rfl
  | cons nm rest ih =>
      have hstable := getOrCreateFolder_stable
        (resolvePath_extends rest (getOrCreateFolder nm p s).folderId
          (getOrCreateFolder nm p s).store)
      simp only [resolvePath, hstable,
        ih (getOrCreateFolder nm p s).folderId (getOrCreateFolder nm p s).store,
        List.map_cons, Nat.add_zero]

/-! ## Session state and Python values

`st.session_state` is a string-keyed, insertion-ordered dictionary plus the
`step` counter.  `Value` covers the kinds of values the handlers store:
strings, naturals, string lists, nested string dictionaries, dates and
`None`. -/

inductive Value where
  | strV (s : String)
  | natV (n : Nat)
  | listV (l : List String)
  | dictV (m : List (String × String))
  | dateV (d : Date)
  | noneV
deriving DecidableEq, Repr

abbrev SheetRow : Type := List (String × Value)

/-- `st.session_state`: the wizard step plus the answer dictionary. -/
structure SessionState where
  step : Nat
  data : List (String × Value)
deriving DecidableEq, Repr

/-- The state on first load: `st.session_state.step = 1`, no answers. -/
def initState : SessionState := ⟨1, []⟩

/-- Python dict lookup. -/
def lookupKey (m : List (String × Value)) (k : String) : Option Value :=
  (m.find? (fun kv => kv.1 == k)).map (fun kv => kv.2)

/-- Python dict assignment `m[k] = v`: replaces in place if the key exists
(keeping insertion order), otherwise appends. -/
def setKey (m : List (String × Value)) (k : String) (v : Value) : List (String × Value) :=
  match m with
  | [] => [(k, v)]
  | (k₂, v₂) :: rest =>
      if k₂ == k then (k, v) :: rest else (k₂, v₂) :: setKey rest k v

/-- `st.session_state.update(kvs)`: assign each pair in order. -/
def updateMap (m : List (String × Value)) (kvs : List (String × Value)) :
    List (String × Value) :=
  kvs.foldl (fun acc kv => setKey acc kv.1 kv.2) m

def ofOptStr (o : Option String) : Value :=
  match o with
  | some s => .strV s
  | none => .noneV

def ofOptDate (o : Option Date) : Value :=
  match o with
  | some d => .dateV d
  | none => .noneV

/-- Python truthiness of an optional string widget value: `None` and the
empty string are falsy. -/
def truthyS (o : Option String) : Bool :=
  match o with
  | some s => !(s == "")
  | none => false

/-! ## Reference data (Schools sheet)

`schools_df` from `read_from_sheet(service, 'Schools!A:D')` is modelled as
its (Program Manager, School Name) column pairs, in sheet row order. -/

/-- First-occurrence deduplication, as pandas `Series.unique`. -/
def uniqueFirst (l : List String) : List String :=
  l.foldl (fun acc x => if x ∈ acc then acc else acc ++ [x]) []

def insertSorted (x : String) : List String → List String
  | [] => [x]
  | y :: ys => if x ≤ y then x :: y :: ys else y :: insertSorted x ys

/-- Python `sorted`, ascending. -/
def sortStrings (l : List String) : List String := l.foldr insertSorted []

/-- Line 368: `sorted(schools_df[schools_df['Program Manager'] ==
selected_pm]['School Name'].unique())` — the school options offered for a
program manager.  A total function: an unknown manager yields `[]`. -/
def pm_schools (schools_df : List (String × String)) (pm : String) : List String :=
  sortStrings (uniqueFirst ((schools_df.filter (fun r => r.1 == pm)).map (fun r => r.2)))

/-- `st.selectbox(label, options)`: Streamlit preselects the first option;
with an empty options list the returned selection is `None`.  No sentinel
entry is added to `options`. -/
def selectFirst (options : List String) : Option String := options.head?

/-! ## Step handlers

Each Next/Previous/Submit button handler of `main` (lines 336–656) is one
function from the current session state and the widget values on screen to
the next session state, plus the `st.warning` message when one is shown. -/

/-- The widget values on step 1 (Basic Information).  Selectbox results
are `Option String` (`None` exactly when the options list is empty); the
date input is `Option Date`; `num_students` is a `number_input` with
`min_value=0`. -/
structure Step1Input where
  selected_pm : Option String
  selected_school : Option String
  date : Option Date
  time : Option String
  standard : Option String
  num_students : Nat
  subjects : List String
deriving DecidableEq, Repr

/-- Line 382: `if selected_pm and selected_school and date and time and
standard and subjects:` — Python truthiness of each named widget value
(`num_students` is not checked). -/
def step1_valid (i : Step1Input) : Bool :=
  truthyS i.selected_pm && truthyS i.selected_school && i.date.isSome &&
    truthyS i.time && truthyS i.standard && !i.subjects.isEmpty

/-- The dictionary passed to `st.session_state.update` on a valid step-1
Next (lines 383–391). -/
def step1_kvs (i : Step1Input) : List (String × Value) :=
  [("program_manager", ofOptStr i.selected_pm),
   ("school", ofOptStr i.selected_school),
   ("date", ofOptDate i.date),
   ("time", ofOptStr i.time),
   ("standard", ofOptStr i.standard),
   ("num_students", .natV i.num_students),
   ("subjects", .listV i.subjects)]

/-- The step-1 `Next` handler (lines 381–395): on valid input merge the
answers and set `step = 2`; otherwise leave the state untouched and show
`st.warning("Please fill all required fields")`. -/
def next_1 (st : SessionState) (i : Step1Input) : SessionState × Option String :=
  if step1_valid i then
    (⟨2, updateMap st.data (step1_kvs i)⟩, none)
  else
    (st, some "Please fill all required fields")

/-- The widget values on step 2 (Lesson Planning and Teaching): nine radio
buttons, each always carrying a selection. -/
structure Step2Input where
  shared_advance : String
  clear_objectives : String
  aligned_activities : String
  clear_instructions : String
  engaging_tone : String
  classroom_movement : String
  hands_on : String
  outdoor_spaces : String
  real_life_examples : String
deriving DecidableEq, Repr

def step2_kvs (i : Step2Input) : List (String × Value) :=
  [("lesson_plan", .dictV
      [("shared_advance", i.shared_advance),
       ("clear_objectives", i.clear_objectives),
       ("aligned_activities", i.aligned_activities)]),
   ("teaching", .dictV
      [("clear_instructions", i.clear_instructions),
       ("engaging_tone", i.engaging_tone),
       ("classroom_movement", i.classroom_movement),
       ("hands_on", i.hands_on),
       ("outdoor_spaces", i.outdoor_spaces),
       ("real_life_examples", i.real_life_examples)])]

/-- The step-2 `Next` handler (lines 449–455): unconditionally stores the
two answer dictionaries and sets `step = 3`; no validation, no warning. -/
def next_2 (st : SessionState) (i : Step2Input) : SessionState × Option String :=
  (⟨3, updateMap st.data (step2_kvs i)⟩, none)

/-- The widget values on step 3 (Student Engagement): four radio buttons
and two text areas (a text area defaults to the empty string). -/
structure Step3Input where
  asking_questions : String
  explaining_work : String
  activity_involvement : String
  peer_help : String
  strengths : String
  growth_areas : String
deriving DecidableEq, Repr

def step3_kvs (i : Step3Input) : List (String × Value) :=
  [("student_engagement", .dictV
      [("asking_questions", i.asking_questions),
       ("explaining_work", i.explaining_work),
       ("activity_involvement", i.activity_involvement),
       ("peer_help", i.peer_help)]),
   ("strengths", .strV i.strengths),
   ("growth_areas", .strV i.growth_areas)]

/-- The step-3 `Next` handler (lines 489–496): unconditional store and
`step = 4`. -/
def next_3 (st : SessionState) (i : Step3Input) : SessionState × Option String :=
  (⟨4, updateMap st.data (step3_kvs i)⟩, none)

/-- The widget values on step 4 (Community Engagement). -/
structure Step4Input where
  month : String
  program_awareness : String
  updates_provided : String
  parent_engagement : String
  feedback_mechanism : String
  local_resources : String
  parent_contribution : String
  resource_details : String
deriving DecidableEq, Repr

/-- Lines 543–549: `resource_details` is included only when
`parent_contribution == "Yes"`. -/
def step4_kvs (i : Step4Input) : List (String × Value) :=
  let base :=
    [("month", .strV i.month),
     ("community", Value.dictV
        [("program_awareness", i.program_awareness),
         ("updates_provided", i.updates_provided),
         ("parent_engagement", i.parent_engagement),
         ("feedback_mechanism", i.feedback_mechanism),
         ("local_resources", i.local_resources)]),
     ("parent_contribution", Value.strV i.parent_contribution)]
  if i.parent_contribution == "Yes" then
    base ++ [("resource_details", Value.strV i.resource_details)]
  else base

/-- The step-4 `Next` handler (lines 542–552): unconditional store and
`step = 5`. -/
def next_4 (st : SessionState) (i : Step4Input) : SessionState × Option String :=
  (⟨5, updateMap st.data (step4_kvs i)⟩, none)

/-- The `Previous` handlers (lines 445–447, 485–487, 538–540, 641–643):
each sets `step` to the fixed previous page and touches nothing else. -/
def prev_2 (st : SessionState) : SessionState := ⟨1, st.data⟩

def prev_3 (st : SessionState) : SessionState := ⟨2, st.data⟩

def prev_4 (st : SessionState) : SessionState := ⟨3, st.data⟩

def prev_5 (st : SessionState) : SessionState := ⟨4, st.data⟩

/-- The widget values on step 5 (Infrastructure Assessment).  `ag_status`
and `maintenance` are only built when `subject == "Agriculture"` (lines
562–579); `photo_ids` is the list initialised at line 592 — nothing in
the source ever appends to it. -/
structure Step5Input where
  subject : String
  ag_status : List (String × String)
  maintenance : List (String × String)
  final_thoughts : String
deriving DecidableEq, Repr

/-- Line 592: `photo_ids = []`.  No statement in the file appends an
uploaded photo's id to this list (the upload block at lines 594–635 calls
`upload_to_drive` but discards the returned id after displaying a link). -/
def photo_ids : List String := []

/-- The `submission_data` dictionary built inside the `Submit` handler
(lines 646–652). -/
def submission_data (i : Step5Input) : SheetRow :=
  [("subject", .strV i.subject),
   ("ag_status", if i.subject == "Agriculture" then .dictV i.ag_status else .noneV),
   ("maintenance", if i.subject == "Agriculture" then .dictV i.maintenance else .noneV),
   ("final_thoughts", .strV i.final_thoughts),
   ("photo_ids", .listV photo_ids)]

structure SubmitResult where
  session : SessionState
  sheet : List SheetRow
  row : SheetRow
  message : String
deriving DecidableEq, Repr

/-- The `Submit` handler (lines 645–656): builds `submission_data`, shows
`st.success("Form submitted successfully!")` and sets `step = 1`.  The
spreadsheet write is absent from the source — line 653 is only the comment
`# Add code here to save submission_data to your Google Sheet` — so the
sheet passes through unchanged and `session.data` is not cleared. -/
def submit_click (st : SessionState) (i : Step5Input) (sheet : List SheetRow) :
    SubmitResult :=
  ⟨⟨1, st.data⟩, sheet, submission_data i, "Form submitted successfully!"⟩

/-! ## Whole-app transition system -/

/-- One user interaction: a button click together with the widget values
on screen at that moment. -/
inductive Event where
  | clickNext1 (i : Step1Input)
  | clickNext2 (i : Step2Input)
  | clickNext3 (i : Step3Input)
  | clickNext4 (i : Step4Input)
  | clickPrev2
  | clickPrev3
  | clickPrev4
  | clickPrev5
  | clickSubmit (i : Step5Input)

/-- The `if/elif` chain of `main` (lines 358–656): a button exists only on
its own page, so an event fires its handler only when `step` matches that
page and otherwise changes nothing. -/
def transition (st : SessionState) : Event → SessionState
  | .clickNext1 i => if st.step = 1 then (next_1 st i).1 else st
  | .clickNext2 i => if st.step = 2 then (next_2 st i).1 else st
  | .clickNext3 i => if st.step = 3 then (next_3 st i).1 else st
  | .clickNext4 i => if st.step = 4 then (next_4 st i).1 else st
  | .clickPrev2 => if st.step = 2 then prev_2 st else st
  | .clickPrev3 => if st.step = 3 then prev_3 st else st
  | .clickPrev4 => if st.step = 4 then prev_4 st else st
  | .clickPrev5 => if st.step = 5 then prev_5 st else st
  | .clickSubmit i => if st.step = 5 then (submit_click st i []).session else st

/-- Session states the app can actually be in: the initial state and
everything reachable from it by user interactions. -/
inductive Reachable : SessionState → Prop where
  | init : Reachable initState
  | next {st : SessionState} (e : Event) : Reachable st → Reachable (transition st e)

/-! ### State-machine lemmas -/

theorem setKey_self {m : List (String × Value)} {k : String} {v : Value}
    (h : lookupKey m k = some v) : setKey m k v = m := by
  induction m with
  | nil => simp [lookupKey] at h
  | cons kv rest ih =>
      obtain ⟨k₂, v₂⟩ := kv
      by_cases hk : k₂ == k
      · have hk₂ : k₂ = k := by simpa using hk
        simp [lookupKey, List.find?, hk] at h
        simp [setKey, hk, h, hk₂]
      · simp only [lookupKey, List.find?, hk] at h
        simp [setKey, hk, ih h]

theorem updateMap_self {m : List (String × Value)} {kvs : List (String × Value)}
    (h : ∀ kv ∈ kvs, lookupKey m kv.1 = some kv.2) : updateMap m kvs = m := by
  induction kvs with
  | nil => rfl
  | cons kv rest ih =>
      have h₁ : setKey m kv.1 kv.2 = m := setKey_self (h kv (by simp))
      simp only [updateMap, List.foldl_cons, h₁]
      exact ih (fun kv₂ hkv₂ => h kv₂ (by simp [hkv₂]))

/-- Every answer already stored for a step is found by a re-merge of the
same values: session data is unchanged. -/
def StoredAll (d : List (String × Value)) (kvs : List (String × Value)) : Prop :=
  ∀ kv ∈ kvs, lookupKey d kv.1 = some kv.2

instance (d kvs : List (String × Value)) : Decidable (StoredAll d kvs) :=
  inferInstanceAs (Decidable (∀ kv ∈ kvs, lookupKey d kv.1 = some kv.2))

/-! ## Concrete fixtures used by witnesses and counterexamples -/

def visitDate : Date := ⟨2024, 3, 5⟩

/-- The scenario input of the spec: PM Asha, school Oak, 2024-03-05, with
every required widget filled. -/
def ashaInput : Step1Input :=
  ⟨some "Asha", some "Oak", some visitDate, some "10:00", some "3", 25, ["Math"]⟩

/-- Same input with the school selection empty. -/
def noSchoolInput : Step1Input :=
  ⟨some "Asha", none, some visitDate, some "10:00", some "3", 25, ["Math"]⟩

/-- Same input with the subjects multiselect left empty instead. -/
def noSubjectsInput : Step1Input :=
  ⟨some "Asha", some "Oak", some visitDate, some "10:00", some "3", 25, []⟩

def sampleStep2 : Step2Input :=
  ⟨"Yes", "Yes", "Partially", "Yes", "No", "Sometimes", "Yes", "No", "Yes"⟩

def sampleStep3 : Step3Input :=
  ⟨"Yes", "No", "Yes", "Sometimes", "strong rapport", "needs pacing"⟩

def sampleStep4 : Step4Input :=
  ⟨"March", "Yes", "No", "Yes", "In Progress", "Yes", "Yes", "soil from a parent"⟩

def sampleStep5 : Step5Input :=
  ⟨"Agriculture",
   [("compost_pit", "Installed"), ("waste_bins", "Not Installed"),
    ("tools", "Installed"), ("fertiliser", "Available")],
   [("Compost Pit", "repair cover")],
   "good visit"⟩

/-- The two-row Schools sheet of the scenario: PM Asha has Oak and Pine. -/
def ashaSchoolsDf : List (String × String) := [("Asha", "Oak"), ("Asha", "Pine")]

/-- A session that walked steps 1–4 with valid inputs and sits on step 5. -/
def completedSession : SessionState :=
  (next_4 (next_3 (next_2 (next_1 initState ashaInput).1 sampleStep2).1 sampleStep3).1
    sampleStep4).1

/-! ## Claims -/

/-- C1: the claim states that pressing Submit on the terminal step appends
the flattened row to the external tabular store, exactly one new row per
completed session.  The source does not: line 653 is only the comment
`# Add code here to save submission_data to your Google Sheet`, so the
Submit handler leaves the sheet unchanged (zero rows appended) while still
reporting success to the user — the code contradicts its own success
message and TODO comment, a code bug.  This theorem evaluates the handler:
for every session, step-5 input and sheet, the sheet after Submit is the
sheet before, its length unchanged, while the success message is shown. -/
theorem C1_submit_writes_no_row (st : SessionState) (i : Step5Input)
    (sheet : List SheetRow) :
    (submit_click st i sheet).sheet = sheet ∧
    (submit_click st i sheet).sheet.length = sheet.length ∧
    (submit_click st i sheet).message = "Form submitted successfully!" :=
  ⟨rfl, rfl, rfl⟩

/-- C2 counterexample: a concrete step-5 session whose answers contain the
school name.  After Submit, `step` is back to 1 but the answers are NOT
cleared — `school` is still stored — refuting the claim that the session
is reset to its initial state with answers and assets cleared. -/
theorem C2_counterexample :
    (submit_click ⟨5, [("school", Value.strV "Oak")]⟩ sampleStep5 []).session.step = 1 ∧
    (submit_click ⟨5, [("school", Value.strV "Oak")]⟩ sampleStep5 []).session ≠ initState ∧
    lookupKey
      (submit_click ⟨5, [("school", Value.strV "Oak")]⟩ sampleStep5 []).session.data
      "school" = some (Value.strV "Oak") := by
  decide

/-- C2 amended: after every submission the handler sets `currentStep` back
to 1 but leaves the accumulated answers untouched (nothing clears them,
and no uploaded-asset sequence is tracked in the session at all). -/
theorem C2_submit_resets_step_only (st : SessionState) (i : Step5Input)
    (sheet : List SheetRow) :
    (submit_click st i sheet).session.step = 1 ∧
    (submit_click st i sheet).session.data = st.data :=
  ⟨rfl, rfl⟩

/-- C3 counterexample: the step-1 handler rejects an input with the school
missing and leaves the state unchanged — but the warning it shows is the
fixed string `Please fill all required fields`, identical to the warning
for an input where instead the subjects list is empty.  The message
therefore cannot report WHICH fields are missing, refuting that part of
the claim. -/
theorem C3_counterexample :
    (next_1 initState noSchoolInput).1 = initState ∧
    (next_1 initState noSchoolInput).2 = some "Please fill all required fields" ∧
    (next_1 initState noSchoolInput).2 = (next_1 initState noSubjectsInput).2 := by
  decide

/-- C3 amended: an advance attempt at step 1 with a required field omitted
or empty fails validation, leaves the session state entirely unchanged
with `currentStep` still 1, and shows the fixed generic warning
`Please fill all required fields` (the specific missing fields are not
named); an advance with all required fields present merges the proposed
answers into the session and moves to step 2. -/
theorem C3_step1_validation (st : SessionState) (i : Step1Input) :
    (step1_valid i = false →
      next_1 st i = (st, some "Please fill all required fields")) ∧
    (step1_valid i = true →
      next_1 st i = (⟨2, updateMap st.data (step1_kvs i)⟩, none)) := by
  constructor <;> intro h <;> simp [next_1, h]

/-- C3 witness: the spec scenario — Asha/Oak/2024-03-05 with all fields
advances to step 2; the same input with the school omitted fails and the
state stays put. -/
theorem C3_step1_validation_witness :
    next_1 initState ashaInput =
      (⟨2, updateMap initState.data (step1_kvs ashaInput)⟩, none) ∧
    next_1 initState noSchoolInput =
      (initState, some "Please fill all required fields") :=
  ⟨(C3_step1_validation initState ashaInput).2 (by decide),
   (C3_step1_validation initState noSchoolInput).1 (by decide)⟩

/-- Resolving the four-segment path against the empty store creates all
four folders, freshly numbered 1–4, each under the previous one. -/
theorem create_folder_structure_empty (school : String) (d : Date) :
    create_folder_structure school d emptyStore =
      ⟨[1, 2, 3, 4],
       ⟨[⟨1, school, 0, true⟩, ⟨2, strfY d, 1, true⟩, ⟨3, strfB d, 2, true⟩,
         ⟨4, strfISO d, 3, true⟩], 5⟩,
       4,
       [.createdNew school, .createdNew (strfY d), .createdNew (strfB d),
        .createdNew (strfISO d)]⟩ := by
  simp [create_folder_structure, resolvePath, getOrCreateFolder, listFolders, emptyStore,
    ROOT_FOLDER_ID, List.filter]

/-- C4: folder-path resolution is idempotent.  (i) For every school, date
and starting store, resolving `[school, year, month, isoDate]` a second
time returns the identical folder-id sequence, leaves the store exactly as
the first run left it and issues zero create calls.  (ii) From an empty
store the two runs leave exactly one folder per path segment (each
segment's name has exactly one match under its resolved parent).  (iii)
When a folder with the segment's name already exists under the parent,
the check-then-create block returns that existing folder's id, issues
zero create calls and leaves the store unchanged. -/
theorem C4_resolve_idempotent :
    (∀ (school : String) (d : Date) (s : DriveStore),
      (create_folder_structure school d (create_folder_structure school d s).store).ids =
          (create_folder_structure school d s).ids ∧
        (create_folder_structure school d (create_folder_structure school d s).store).store =
          (create_folder_structure school d s).store ∧
        (create_folder_structure school d
          (create_folder_structure school d s).store).creates = 0) ∧
    (∀ (school : String) (d : Date),
      (create_folder_structure school d emptyStore).ids = [1, 2, 3, 4] ∧
      (listFolders (create_folder_structure school d
          (create_folder_structure school d emptyStore).store).store
        school ROOT_FOLDER_ID).length = 1 ∧
      (listFolders (create_folder_structure school d
          (create_folder_structure school d emptyStore).store).store
        (strfY d) 1).length = 1 ∧
      (listFolders (create_folder_structure school d
          (create_folder_structure school d emptyStore).store).store
        (strfB d) 2).length = 1 ∧
      (listFolders (create_folder_structure school d
          (create_folder_structure school d emptyStore).store).store
        (strfISO d) 3).length = 1) ∧
    (∀ (nm : String) (p : Nat) (s : DriveStore) (f : Folder) (t : List Folder),
      listFolders s nm p = f :: t →
      getOrCreateFolder nm p s = ⟨f.id, s, 0, DriveMsg.foundExisting nm⟩) := by
  have hstore : ∀ (school : String) (d : Date) (s : DriveStore),
      (create_folder_structure school d (create_folder_structure school d s).store).store =
        (create_folder_structure school d s).store := by
    intro school d s
    simp only [create_folder_structure]
    rw [resolvePath_idem]
  refine ⟨?_, ?_, ?_⟩
  · intro school d s
    refine ⟨?_, hstore school d s, ?_⟩ <;>
      simp only [create_folder_structure] <;> rw [resolvePath_idem]
  · intro school d
    rw [hstore school d emptyStore, create_folder_structure_empty school d]
    refine ⟨rfl, ?_, ?_, ?_, ?_⟩ <;> simp [listFolders, List.filter, ROOT_FOLDER_ID]
  · intro nm p s f t h
    exact getOrCreateFolder_found h

/-- C4 witness: the spec scenario — the store already lists folder 7 named
2024-03-05 under month folder 6; the block returns id 7 with zero creates
— together with the first-run id sequence for SchoolA on 2024-03-05 from
an empty store. -/
theorem C4_resolve_idempotent_witness :
    getOrCreateFolder "2024-03-05" 6 ⟨[⟨7, "2024-03-05", 6, true⟩], 8⟩ =
      ⟨7, ⟨[⟨7, "2024-03-05", 6, true⟩], 8⟩, 0, DriveMsg.foundExisting "2024-03-05"⟩ ∧
    (create_folder_structure "SchoolA" visitDate emptyStore).ids = [1, 2, 3, 4] :=
  ⟨C4_resolve_idempotent.2.2 "2024-03-05" 6 ⟨[⟨7, "2024-03-05", 6, true⟩], 8⟩
      ⟨7, "2024-03-05", 6, true⟩ [] (by decide),
   (C4_resolve_idempotent.2.1 "SchoolA" visitDate).1⟩

/-- C5 counterexample: a store listing TWO folders named A under the same
parent.  The block does pick the first match (id 7) and creates no
duplicate — but the message it surfaces is the ordinary `foundExisting`
success, the very same message produced when exactly one match exists.
The source has no duplicate detection at all, so no
DuplicateResourceWarning is ever surfaced, refuting that part of the
claim. -/
theorem C5_counterexample :
    getOrCreateFolder "A" 0 ⟨[⟨7, "A", 0, true⟩, ⟨8, "A", 0, true⟩], 9⟩ =
      ⟨7, ⟨[⟨7, "A", 0, true⟩, ⟨8, "A", 0, true⟩], 9⟩, 0, DriveMsg.foundExisting "A"⟩ ∧
    (getOrCreateFolder "A" 0 ⟨[⟨7, "A", 0, true⟩, ⟨8, "A", 0, true⟩], 9⟩).msg =
      (getOrCreateFolder "A" 0 ⟨[⟨7, "A", 0, true⟩], 8⟩).msg := by
  decide

/-- C5 amended: whenever the store lists one or more folders matching the
segment name under the parent (duplicates included), the block
deterministically returns the first match in the store's listing order,
issues zero create calls and leaves the store unchanged; the message shown
is the plain `found existing` success — identical to the unique-match case
— and never the `created new` message; no duplicate-specific warning
exists in the code. -/
theorem C5_first_match_no_warning (nm : String) (p : Nat) (s : DriveStore)
    (f : Folder) (t : List Folder) (h : listFolders s nm p = f :: t) :
    getOrCreateFolder nm p s = ⟨f.id, s, 0, DriveMsg.foundExisting nm⟩ ∧
    (getOrCreateFolder nm p s).msg ≠ DriveMsg.createdNew nm := by
  refine ⟨getOrCreateFolder_found h, ?_⟩
  rw [getOrCreateFolder_found h]
  simp

/-- C5 witness: instantiated at a store holding two sibling folders named
A under parent 5 — the duplicate case of the claim. -/
theorem C5_first_match_no_warning_witness :
    getOrCreateFolder "A" 5 ⟨[⟨9, "A", 5, true⟩, ⟨10, "A", 5, true⟩], 11⟩ =
      ⟨9, ⟨[⟨9, "A", 5, true⟩, ⟨10, "A", 5, true⟩], 11⟩, 0,
        DriveMsg.foundExisting "A"⟩ ∧
    (getOrCreateFolder "A" 5 ⟨[⟨9, "A", 5, true⟩, ⟨10, "A", 5, true⟩], 11⟩).msg ≠
      DriveMsg.createdNew "A" :=
  C5_first_match_no_warning "A" 5 ⟨[⟨9, "A", 5, true⟩, ⟨10, "A", 5, true⟩], 11⟩
    ⟨9, "A", 5, true⟩ [⟨10, "A", 5, true⟩] (by decide)

/-- C6 counterexample: a session that reached step 5 through valid
advances holds the step 1–4 answers (school Oak among them), yet the
submission dictionary built at Submit contains no entry for `school` — or
for any step 1–4 field — only the five step-5 keys; and its `photo_ids`
entry is the empty list even though `upload_to_drive` does return a fresh
file id (5 here) for an uploaded photo, because no code appends that id to
`photo_ids`.  This refutes one-entry-per-required-field and
one-Asset-entry-per-upload. -/
theorem C6_counterexample :
    completedSession.step = 5 ∧
    lookupKey completedSession.data "school" = some (Value.strV "Oak") ∧
    lookupKey (submission_data sampleStep5) "school" = none ∧
    (submission_data sampleStep5).map Prod.fst =
      ["subject", "ag_status", "maintenance", "final_thoughts", "photo_ids"] ∧
    (upload_to_drive "104502_pic.jpg" 4
      (create_folder_structure "Oak" visitDate emptyStore).store).1 = 5 ∧
    lookupKey (submission_data sampleStep5) "photo_ids" = some (Value.listV []) := by
  decide

/-- C6 amended: for every session and step-5 input, the row handed to the
Submit handler is `submission_data`, whose keys are exactly the five
step-5 fields — subject, ag_status, maintenance, final_thoughts and
photo_ids — with `photo_ids` always the empty list; no step 1–4 answer and
no uploaded-asset identifier is included. -/
theorem C6_submission_row_only_step5 (st : SessionState) (i : Step5Input)
    (sheet : List SheetRow) :
    (submit_click st i sheet).row = submission_data i ∧
    (submission_data i).map Prod.fst =
      ["subject", "ag_status", "maintenance", "final_thoughts", "photo_ids"] ∧
    lookupKey (submission_data i) "photo_ids" = some (Value.listV []) ∧
    lookupKey (submission_data i) "school" = none := by
  refine ⟨rfl, by simp [submission_data], ?_, ?_⟩ <;>
    simp [submission_data, lookupKey, List.find?, photo_ids]

/-- C7 counterexample: with the scenario Schools sheet (only Asha has
schools), the options computed for manager Bea are the empty list, the
selectbox over them yields no selection, and no sentinel entry such as
`no schools found` is presented — refuting the explicit-sentinel part of
the claim. -/
theorem C7_counterexample :
    pm_schools ashaSchoolsDf "Bea" = [] ∧
    selectFirst (pm_schools ashaSchoolsDf "Bea") = none ∧
    "no schools found" ∉ pm_schools ashaSchoolsDf "Bea" := by
  decide

/-- C7 amended: for every Schools sheet and every program manager with no
associated school rows, the (total, never-throwing) school filter returns
the empty list, and the school selectbox built from it carries no
selection — the wizard offers no sentinel option and no arbitrary default;
the empty selection then fails step-1 validation. -/
theorem C7_empty_schools (df : List (String × String)) (pm : String)
    (h : ∀ r ∈ df, r.1 ≠ pm) :
    pm_schools df pm = [] ∧ selectFirst (pm_schools df pm) = none := by
  have hf : df.filter (fun r => r.1 == pm) = [] := by
    rw [List.filter_eq_nil_iff]
    intro r hr
    simpa using h r hr
  have h2 : pm_schools df pm = [] := by
    unfold pm_schools
    rw [hf]
    rfl
  exact ⟨h2, by rw [h2]; rfl⟩

/-- C7 witness: manager Bea has no rows in the scenario sheet. -/
theorem C7_empty_schools_witness :
    pm_schools ashaSchoolsDf "Bea" = [] ∧
    selectFirst (pm_schools ashaSchoolsDf "Bea") = none :=
  C7_empty_schools ashaSchoolsDf "Bea" (by decide)

/-- C8: retreat/advance round trip loses no data.  Every Previous handler
leaves the answer dictionary untouched, and from any step s in 2..5,
Previous followed by the Next of step s-1 with unchanged input (widget
values equal to what the session already stores, and — for step 1 — still
valid) reproduces the very same session: same `answers`, same `step`, no
warning. -/
theorem C8_retreat_advance_roundtrip (st : SessionState)
    (i1 : Step1Input) (i2 : Step2Input) (i3 : Step3Input) (i4 : Step4Input) :
    ((prev_2 st).data = st.data ∧ (prev_3 st).data = st.data ∧
      (prev_4 st).data = st.data ∧ (prev_5 st).data = st.data) ∧
    (st.step = 2 → step1_valid i1 = true → StoredAll st.data (step1_kvs i1) →
      next_1 (prev_2 st) i1 = (st, none)) ∧
    (st.step = 3 → StoredAll st.data (step2_kvs i2) →
      next_2 (prev_3 st) i2 = (st, none)) ∧
    (st.step = 4 → StoredAll st.data (step3_kvs i3) →
      next_3 (prev_4 st) i3 = (st, none)) ∧
    (st.step = 5 → StoredAll st.data (step4_kvs i4) →
      next_4 (prev_5 st) i4 = (st, none)) := by
  obtain ⟨s, d⟩ := st
  refine ⟨⟨rfl, rfl, rfl, rfl⟩, ?_, ?_, ?_, ?_⟩
  · intro hs hv hstored
    simp only at hs
    subst hs
    simp [prev_2, next_1, hv, updateMap_self hstored]
  · intro hs hstored
    simp only at hs
    subst hs
    simp [prev_3, next_2, updateMap_self hstored]
  · intro hs hstored
    simp only at hs
    subst hs
    simp [prev_4, next_3, updateMap_self hstored]
  · intro hs hstored
    simp only at hs
    subst hs
    simp [prev_5, next_4, updateMap_self hstored]

/-- C8 witness: a step-2 session storing exactly the Asha step-1 answers;
Previous then Next with the same widget values restores it unchanged. -/
theorem C8_retreat_advance_roundtrip_witness :
    next_1 (prev_2 ⟨2, step1_kvs ashaInput⟩) ashaInput =
      (⟨2, step1_kvs ashaInput⟩, none) :=
  (C8_retreat_advance_roundtrip ⟨2, step1_kvs ashaInput⟩ ashaInput sampleStep2
      sampleStep3 sampleStep4).2.1 rfl (by decide) (by decide)

/-- C9: in every reachable session state, `1 ≤ currentStep ≤ 5`: the
initial state is step 1 and every Next/Previous/Submit transition writes a
value inside the range; moreover at step 1 no Previous handler fires (the
floor is never crossed — no Previous button exists on page 1, so every
Previous event is a no-op there). -/
theorem C9_step_invariant :
    (∀ st : SessionState, Reachable st → 1 ≤ st.step ∧ st.step ≤ 5) ∧
    (∀ st : SessionState, st.step = 1 →
      transition st Event.clickPrev2 = st ∧ transition st Event.clickPrev3 = st ∧
      transition st Event.clickPrev4 = st ∧ transition st Event.clickPrev5 = st) := by
  constructor
  · intro st h
    induction h with
    | init => exact ⟨Nat.le_refl 1, by decide⟩
    | next e _ ih =>
        cases e <;>
          simp only [transition, next_1, next_2, next_3, next_4, prev_2, prev_3,
            prev_4, prev_5, submit_click] <;>
          split_ifs <;> simp_all
  · intro st h
    refine ⟨?_, ?_, ?_, ?_⟩ <;> simp [transition, h]

/-- C9 witness: the invariant at the initial state, and the no-op of a
Previous event there. -/
theorem C9_step_invariant_witness :
    (1 ≤ initState.step ∧ initState.step ≤ 5) ∧
    transition initState Event.clickPrev2 = initState :=
  ⟨C9_step_invariant.1 initState Reachable.init,
   (C9_step_invariant.2 initState rfl).1⟩

/-- C10: the Next handlers of steps 2, 3 and 4 are unconditional — for
every session state and every possible widget input they store the
current widget values into the session, set the step to 3, 4 and 5
respectively, and return no warning: no per-step validation exists there,
so these advances can never fail and never report missing fields. -/
theorem C10_steps_2_4_always_advance (st : SessionState)
    (i2 : Step2Input) (i3 : Step3Input) (i4 : Step4Input) :
    next_2 st i2 = (⟨3, updateMap st.data (step2_kvs i2)⟩, none) ∧
    next_3 st i3 = (⟨4, updateMap st.data (step3_kvs i3)⟩, none) ∧
    next_4 st i4 = (⟨5, updateMap st.data (step4_kvs i4)⟩, none) :=
  ⟨rfl, rfl, rfl⟩

end GDriveUpload
